import Mathlib

/-!
Verification development for the FS_Black_Hills_Lidar job-dispatch subsystem.

The Python sources embedded here are:
  * `hpc/dispatch-gridmetric-jobs.py` — the HPC dispatcher: `MAX_WORKERS`,
    `grid_metrics_chm_worker`, `dispatch`, `main` (namespace `Hpc` below);
  * `lib/py/vogeler/extlib.py` — the streaming dispatcher: `MAX_WORKERS`,
    `run_dill`, `dispatch` (namespace `Extlib` below).

Machine integers are modelled as `Nat` with explicit `% 2 ^ 32` where the
SHA-1 rounds overflow; Python exceptions are modelled with `Except PyErr`;
the process pool is modelled by an explicit completion order together with
the invariant (from `concurrent.futures` semantics) that future results are
memoized and `shutdown(wait=True)` runs every submitted job to completion.
-/

/-- Python exceptions that the embedded code can raise. -/
inductive PyErr where
  | typeError (msg : String)
  | nameError (name : String)
  | valueError (msg : String)
  | other (msg : String)
deriving DecidableEq, Repr

instance {ε α : Type} [DecidableEq ε] [DecidableEq α] : DecidableEq (Except ε α)
  | .ok a, .ok b => decidable_of_iff (a = b) (by simp)
  | .ok _, .error _ => isFalse (by intro h; cases h)
  | .error _, .ok _ => isFalse (by intro h; cases h)
  | .error e, .error f => decidable_of_iff (e = f) (by simp)

/-! ### SHA-1 (model of `hashlib.sha1`)

`grid_metrics_chm_worker` derives the job identity with
`hashlib.sha1(bytes(str(poly_wkt), 'utf8')).hexdigest()`.  We embed the
SHA-1 algorithm itself (FIPS 180-1) so that digest facts are computable. -/

/-- Rotate a 32-bit word left by `n` bits. -/
def rotl32 (n x : Nat) : Nat :=
  ((x <<< n) ||| (x >>> (32 - n))) % 4294967296

/-- Big-endian bytes (most significant first) of `v`, `k` bytes wide. -/
def beBytes (k v : Nat) : List Nat :=
  (List.range k).map (fun i => (v >>> (8 * (k - 1 - i))) % 256)

/-- Group a byte list into big-endian 32-bit words. -/
def bytesToWords : List Nat → List Nat
  | b0 :: b1 :: b2 :: b3 :: rest =>
      ((((b0 <<< 8) ||| b1) <<< 8 ||| b2) <<< 8 ||| b3) :: bytesToWords rest
  | _ => []

/-- Extend the 16 chunk words to the 80 schedule words. -/
def sha1ExtendWords (ws : Array Nat) : Array Nat :=
  (List.range 64).foldl
    (fun a i =>
      let x := (a.getD (i + 13) 0) ^^^ (a.getD (i + 8) 0) ^^^
               (a.getD (i + 2) 0) ^^^ (a.getD i 0)
      a.push (rotl32 1 x))
    ws

/-- SHA-1 round function for round `t`. -/
def sha1f (t b c d : Nat) : Nat :=
  if t < 20 then (b &&& c) ||| ((b ^^^ 4294967295) &&& d)
  else if t < 40 then b ^^^ c ^^^ d
  else if t < 60 then (b &&& c) ||| (b &&& d) ||| (c &&& d)
  else b ^^^ c ^^^ d

/-- SHA-1 round constant for round `t`. -/
def sha1k (t : Nat) : Nat :=
  if t < 20 then 0x5A827999
  else if t < 40 then 0x6ED9EBA1
  else if t < 60 then 0x8F1BBCDC
  else 0xCA62C1D6

/-- SHA-1 working state (five 32-bit words). -/
structure Sha1H where
  a : Nat
  b : Nat
  c : Nat
  d : Nat
  e : Nat
deriving DecidableEq, Repr

/-- One SHA-1 round on the working state. -/
def sha1Round (w : Array Nat) (s : Sha1H) (t : Nat) : Sha1H :=
  let temp :=
    (rotl32 5 s.a + sha1f t s.b s.c s.d + s.e + sha1k t + w.getD t 0) % 4294967296
  ⟨temp, s.a, rotl32 30 s.b, s.c, s.d⟩

/-- Process one 64-byte chunk, folding the 80 rounds and re-adding `h`. -/
def sha1ProcessChunk (h : Sha1H) (chunk : List Nat) : Sha1H :=
  let w := sha1ExtendWords (Array.mk (bytesToWords chunk))
  let s := (List.range 80).foldl (sha1Round w) h
  ⟨(h.a + s.a) % 4294967296, (h.b + s.b) % 4294967296,
   (h.c + s.c) % 4294967296, (h.d + s.d) % 4294967296,
   (h.e + s.e) % 4294967296⟩

/-- Merkle-Damgard padding: append `0x80`, zeros to 56 mod 64, then the
bit length as 8 big-endian bytes. -/
def sha1Pad (msg : List Nat) : List Nat :=
  let n := msg.length
  let k := (120 - (n + 1) % 64) % 64
  msg ++ [0x80] ++ List.replicate k 0 ++ beBytes 8 (8 * n)

/-- Split into 64-byte chunks (fuel-driven so that it reduces in the kernel). -/
def chunks64Aux : Nat → List Nat → List (List Nat)
  | 0, _ => []
  | _, [] => []
  | fuel + 1, l => l.take 64 :: chunks64Aux fuel (l.drop 64)

/-- Split a byte list into 64-byte chunks. -/
def chunks64 (l : List Nat) : List (List Nat) := chunks64Aux l.length l

/-- The SHA-1 initialization vector. -/
def sha1Init : Sha1H := ⟨0x67452301, 0xEFCDAB89, 0x98BADCFE, 0x10325476, 0xC3D2E1F0⟩

/-- Combine the final state into the 160-bit digest value. -/
def sha1Combine (s : Sha1H) : Nat :=
  (((s.a * 4294967296 + s.b) * 4294967296 + s.c) * 4294967296 + s.d)
    * 4294967296 + s.e

/-- SHA-1 digest of a byte list, as a 160-bit natural number. -/
def sha1Nat (msg : List Nat) : Nat :=
  sha1Combine ((chunks64 (sha1Pad msg)).foldl sha1ProcessChunk sha1Init)

/-- Little-endian base-16 digits of `n`, `k` digits wide. -/
def nibsLE : Nat → Nat → List Nat
  | 0, _ => []
  | k + 1, n => n % 16 :: nibsLE k (n / 16)

/-- Value of a little-endian base-16 digit list. -/
def ofNibsLE : List Nat → Nat
  | [] => 0
  | d :: ds => d + 16 * ofNibsLE ds

/-- Lowercase hexadecimal digit character, as `hexdigest` produces. -/
def hexDigitChar (d : Nat) : Char :=
  if d < 10 then Char.ofNat (48 + d) else Char.ofNat (87 + d)

/-- The 40-character lowercase hex form of a 160-bit digest
(model of `hexdigest()`). -/
def sha1HexStr (n : Nat) : String :=
  ⟨(nibsLE 40 n).reverse.map hexDigitChar⟩

/-- UTF-8 encoding of one character (model of Python `bytes(s, 'utf8')`). -/
def utf8EncodeChar (c : Char) : List Nat :=
  let n := c.toNat
  if n < 128 then [n]
  else if n < 2048 then [192 ||| (n >>> 6), 128 ||| (n &&& 63)]
  else if n < 65536 then
    [224 ||| (n >>> 12), 128 ||| ((n >>> 6) &&& 63), 128 ||| (n &&& 63)]
  else
    [240 ||| (n >>> 18), 128 ||| ((n >>> 12) &&& 63),
     128 ||| ((n >>> 6) &&& 63), 128 ||| (n &&& 63)]

/-- UTF-8 bytes of a string. -/
def utf8Bytes (s : String) : List Nat :=
  (s.toList.map utf8EncodeChar).flatten

/-! ### The HPC dispatcher (`hpc/dispatch-gridmetric-jobs.py`) -/

namespace Hpc

/-- `MAX_WORKERS = int(os.environ['SLURM_NTASKS']) - 1`, parameterized by the
integer value of the `SLURM_NTASKS` environment variable. -/
def MAX_WORKERS (slurm_ntasks : Int) : Int := slurm_ntasks - 1

/-- `TILE_BUFFER = 40`. -/
def TILE_BUFFER : Nat := 40

/-- `poly_hash = hashlib.sha1(bytes(str(poly_wkt), 'utf8')).hexdigest()`. -/
def poly_hash (poly_wkt : String) : String :=
  sha1HexStr (sha1Nat (utf8Bytes poly_wkt))

/-- `out_dir = Path("./export", poly_hash).resolve()`: the job's dedicated
output directory, named by the content digest. -/
def out_dir (poly_wkt : String) : String := "./export/" ++ poly_hash poly_wkt

/-- The job's completion marker path, `out_dir / "DONE"`. -/
def done_marker (poly_wkt : String) : String := out_dir poly_wkt ++ "/DONE"

/-- Filesystem effects visible to the worker: which output directories exist
and which `DONE` markers are present. -/
structure FS where
  dirs : List String
  doneMarkers : List String
deriving DecidableEq, Repr

/-- `(out_dir / "DONE").exists()`. -/
def FS.hasDone (fs : FS) (marker : String) : Bool :=
  decide (marker ∈ fs.doneMarkers)

/-- Events performed by one invocation of `grid_metrics_chm_worker`, in
program order.  `writeBytes` is `log_f.write(bytes(..., 'utf8'))`;
`writeStr` is `log_f.write(<str>)`, which on the binary-mode (`'ab'`) log
raises `TypeError`; `procOutput` is the subprocess writing its combined
stdout/stderr into the log. -/
inductive Ev where
  | mkdirOut (dir : String)
  | openLog (path : String)
  | writeBytes (data : String)
  | flushLog
  | checkDone (marker : String) (present : Bool)
  | writeStr (data : String)
  | launch (dir : String)
  | procOutput (data : String)
  | writeDoneMarker (marker : String)
  | closeLog
deriving DecidableEq, Repr

/-- Modelled from the spec: the external program run by the worker
(`/bh/04-grid-metrics/gen-gridmet+chms.R`, invoked via `srun`/`apptainer`)
is repository code that is not part of the Python tree.  Per the spec it
materializes the job's artifacts into the digest-named directory, writes its
combined stdout/stderr into the job log, and "on success, write the marker
as the last step": we model it by its exit code and its combined output,
with the `DONE` marker written exactly when the exit code is `0`. -/
structure ExtProc where
  exitCode : Int
  output : String

/-- The log header written before the `DONE` check:
`f"JOB: {poly_wkt}\nSTARTING: {timestamp()}\n\n"`. -/
def log_header (poly_wkt t1 : String) : String :=
  "JOB: " ++ poly_wkt ++ "\nSTARTING: " ++ t1 ++ "\n\n"

/-- Python `str(rc)` for the exit-code slot of the footer. -/
def rcStr : Option Int → String
  | none => "None"
  | some rc => toString rc

/-- The log footer: `f"\nFINISHED: {timestamp()}\nEXIT CODE: {rc}\n"`. -/
def log_footer (t2 : String) (rc : Option Int) : String :=
  "\nFINISHED: " ++ t2 ++ "\nEXIT CODE: " ++ rcStr rc ++ "\n"

/-- What one worker invocation produced: its return (or raised exception),
the filesystem afterwards, and its event trace. -/
structure WorkerResult where
  ret : Except PyErr (Option Int)
  fs : FS
  trace : List Ev
deriving DecidableEq, Repr

/-- `grid_metrics_chm_worker(poly_wkt)`, parameterized by the behavior
`proc` of the external program (spec-modelled, see `ExtProc`), the
filesystem `fs` it starts in, and the two `timestamp()` reads `t1`, `t2`.

Program order from the source: compute `poly_hash`; `out_dir.mkdir(exist_ok=True)`;
open the log in `'ab'` mode; write the header bytes and flush; test
`(out_dir / "DONE").exists()`.  If present, the source does
`log_f.write("Found DONE file (job already complete)\n")` — a `str` written
to a binary-mode file, which raises `TypeError`; the `with` block closes the
log and the exception propagates, so neither `rc = None` nor the footer is
reached.  Otherwise `sp.run` is launched with stdout/stderr on the log, the
footer is written, and the exit code is returned. -/
def grid_metrics_chm_worker (proc : String → ExtProc) (fs : FS)
    (poly_wkt : String) (t1 t2 : String) : WorkerResult :=
  let dir := out_dir poly_wkt
  let marker := done_marker poly_wkt
  let logPath := dir ++ "/gen-gridmet+chms.log"
  let fs1 : FS :=
    { fs with dirs := if dir ∈ fs.dirs then fs.dirs else dir :: fs.dirs }
  let pre : List Ev :=
    [.mkdirOut dir, .openLog logPath, .writeBytes (log_header poly_wkt t1),
     .flushLog]
  if fs1.hasDone marker then
    { ret := .error (.typeError "a bytes-like object is required, not str")
      fs := fs1
      trace := pre ++ [.checkDone marker true,
        .writeStr "Found DONE file (job already complete)\n", .closeLog] }
  else
    let p := proc poly_wkt
    let fs2 : FS :=
      if p.exitCode = 0 then { fs1 with doneMarkers := marker :: fs1.doneMarkers }
      else fs1
    { ret := .ok (some p.exitCode)
      fs := fs2
      trace := pre ++ [.checkDone marker false, .launch dir, .procOutput p.output]
        ++ (if p.exitCode = 0 then [.writeDoneMarker marker] else [])
        ++ [.writeBytes (log_footer t2 (some p.exitCode)), .closeLog] }

/-- The contents appended to the job log, in order (projection of the event
trace to successful file writes). -/
def logContent : List Ev → List String
  | [] => []
  | .writeBytes s :: r => s :: logContent r
  | .procOutput s :: r => s :: logContent r
  | _ :: r => logContent r

/-- `[f.result() for f in futures]`: collect future results in submission
order; the first result that re-raises aborts the comprehension. -/
def collectResults {R : Type} : List (Except PyErr R) → Except PyErr (List R)
  | [] => .ok []
  | .error e :: _ => .error e
  | .ok r :: rest =>
    match collectResults rest with
    | .ok rs => .ok (r :: rs)
    | .error e => .error e

/-- `ProcessPoolExecutor(max_workers=n)` with `n <= 0` raises
`ValueError("max_workers must be greater than 0")`. -/
def pool_err : PyErr := .valueError "max_workers must be greater than 0"

/-- What one call of `dispatch` produced: the value it returned to the
caller (or the exception it let propagate), the indices of the submitted
jobs the pool actually ran, and the pool size held for the batch. -/
structure DispatchResult (R : Type) where
  returned : Except PyErr (List R)
  executed : List Nat
  poolSize : Option Int
deriving DecidableEq, Repr

/-- `dispatch(jobs, worker, max_workers)` of `dispatch-gridmetric-jobs.py`:
submit every job up front, then block on `f.result()` future by future, in
submission order.  `completionOrder` is the order in which the pool happens
to finish the submitted futures; future results are memoized, so the
per-index blocking collection never consults it — which is exactly the
ordered-mode guarantee.  Exiting the `with` block runs
`shutdown(wait=True)` without cancelling, so every submitted job executes
even when a collected future re-raises. -/
def dispatch {J R : Type} (jobs : List J) (worker : J → Except PyErr R)
    (max_workers : Int) (completionOrder : List Nat) : DispatchResult R :=
  if max_workers ≤ 0 then ⟨.error pool_err, [], none⟩
  else
    ⟨collectResults (jobs.map worker), List.range jobs.length, some max_workers⟩

/-- `main()`: reads the WKT list, calls
`dispatch(wkt_list, grid_metrics_chm_worker)` with the default
`MAX_WORKERS`, discards the returned results, and returns `None` — the
interpreter exits `0`.  If `dispatch` raised, `sys.excepthook` logs the
failure at critical severity and the interpreter exits non-zero (`1`). -/
def mainExitStatus (wkt_list : List String)
    (worker : String → Except PyErr (Option Int)) (slurm_ntasks : Int)
    (completionOrder : List Nat) : Nat :=
  match (dispatch wkt_list worker (MAX_WORKERS slurm_ntasks) completionOrder).returned with
  | .ok _ => 0
  | .error _ => 1

end Hpc

/-! ### The streaming dispatcher (`lib/py/vogeler/extlib.py`) -/

namespace Extlib

/-- `MAX_WORKERS = os.cpu_count()`, parameterized by the cpu count. -/
def MAX_WORKERS (cpu_count : Int) : Int := cpu_count

/-- A `dill.dumps` payload: the serialized callable together with its
captured environment.  `dill` serializes faithfully, so the payload is
modelled as carrying the value it encodes. -/
structure DillPayload (α : Type) where
  value : α

/-- `dill.dumps`. -/
def dill_dumps {α : Type} (x : α) : DillPayload α := ⟨x⟩

/-- `dill.loads`. -/
def dill_loads {α : Type} (d : DillPayload α) : α := d.value

/-- `run_dill(fn, *args) = dill.loads(fn)(*args)`: deserialize the callable
inside the execution context and invoke it. -/
def run_dill {α β : Type} (fn : DillPayload (α → β)) (arg : α) : β :=
  dill_loads fn arg

/-- What the generator produced for its consumer: either it ran to
completion having yielded the listed pairs, or it raised an exception after
yielding the listed pairs. -/
inductive StreamOut (J R : Type) where
  | done : List (J × R) → StreamOut J R
  | raised : PyErr → List (J × R) → StreamOut J R
deriving DecidableEq, Repr

/-- The `for f in as_completed(futures_jobs)` loop body of `extlib.dispatch`,
walking the futures in completion order.  Each iteration first evaluates
`log.info("Worker finished: %s", futures_jobs[f])` — `log` is a module-level
name `extlib.py` never defines, so when `logBinding` is `none` this raises
`NameError` before anything is yielded — and then yields
`(futures_jobs[f], f.result())`, where the future holds
`run_dill(dill.dumps(worker), job)`. -/
def dispatchEvents {J R : Type} [Inhabited J] (jobs : List J)
    (worker : J → Except PyErr R) (logBinding : Option String) :
    List Nat → StreamOut J R
  | [] => .done []
  | i :: rest =>
    match logBinding with
    | none => .raised (.nameError "log") []
    | some _ =>
      match run_dill (dill_dumps worker) (jobs.getD i default) with
      | .error e => .raised e []
      | .ok r =>
        match dispatchEvents jobs worker logBinding rest with
        | .done ps => .done ((jobs.getD i default, r) :: ps)
        | .raised e ps => .raised e ((jobs.getD i default, r) :: ps)

/-- Following the spec's words, the same loop with the worker applied
directly (no serialize/deserialize indirection): the reference point for the
`run_dill ∘ dill.dumps` two-stage indirection. -/
def dispatchEventsDirect {J R : Type} [Inhabited J] (jobs : List J)
    (worker : J → Except PyErr R) (logBinding : Option String) :
    List Nat → StreamOut J R
  | [] => .done []
  | i :: rest =>
    match logBinding with
    | none => .raised (.nameError "log") []
    | some _ =>
      match worker (jobs.getD i default) with
      | .error e => .raised e []
      | .ok r =>
        match dispatchEventsDirect jobs worker logBinding rest with
        | .done ps => .done ((jobs.getD i default, r) :: ps)
        | .raised e ps => .raised e ((jobs.getD i default, r) :: ps)

/-- What one full consumption of the `extlib.dispatch` generator produced:
the yielded/raised outcome, the indices of submitted jobs the pool ran, and
the pool size. -/
structure StreamRun (J R : Type) where
  events : StreamOut J R
  executed : List Nat
  poolSize : Option Int
deriving DecidableEq, Repr

/-- `dispatch(jobs, worker, max_workers)` of `extlib.py`: wrap the worker as
`functools.partial(run_dill, dill.dumps(worker))`, submit every job up
front, then yield `(job, result)` pairs in completion order.
`completionOrder` lists the submitted future indices in the order
`as_completed` hands them back; `logBinding` is the value (if any) the
caller has bound to the module-level name `log`. -/
def dispatch {J R : Type} [Inhabited J] (jobs : List J)
    (worker : J → Except PyErr R) (max_workers : Int)
    (completionOrder : List Nat) (logBinding : Option String) : StreamRun J R :=
  if max_workers ≤ 0 then ⟨.raised Hpc.pool_err [], [], none⟩
  else
    ⟨dispatchEvents jobs worker logBinding completionOrder,
     List.range jobs.length, some max_workers⟩

end Extlib

/-! ### Helper lemmas -/

theorem stringAppendLeftCancel {s a b : String} (h : s ++ a = s ++ b) : a = b := by
  cases s with | mk sd =>
  cases a with | mk ad =>
  cases b with | mk bd =>
  have hd : sd ++ ad = sd ++ bd := congrArg String.data h
  have hab : ad = bd := List.append_cancel_left hd
  rw [hab]

theorem ofNibsLE_nibsLE (k : Nat) : ∀ n : Nat, ofNibsLE (nibsLE k n) = n % 16 ^ k := by
  induction k with
  | zero => intro n; simp [nibsLE, ofNibsLE, Nat.mod_one]
  | succ k ih =>
    intro n
    rw [nibsLE, ofNibsLE, ih, pow_succ']
    exact (Nat.mod_mul).symm

theorem nibsLE_lt (k : Nat) : ∀ n : Nat, ∀ d ∈ nibsLE k n, d < 16 := by
  induction k with
  | zero => intro n d hd; simp [nibsLE] at hd
  | succ k ih =>
    intro n d hd
    rw [nibsLE] at hd
    rcases List.mem_cons.mp hd with h | h
    · subst h; exact Nat.mod_lt _ (by norm_num)
    · exact ih _ _ h

theorem hexDigitChar_injOn :
    ∀ a < 16, ∀ b < 16, hexDigitChar a = hexDigitChar b → a = b := by decide

theorem map_hexDigitChar_inj :
    ∀ xs ys : List Nat, (∀ d ∈ xs, d < 16) → (∀ d ∈ ys, d < 16) →
      xs.map hexDigitChar = ys.map hexDigitChar → xs = ys := by
  intro xs
  induction xs with
  | nil => intro ys _ _ h; cases ys with
    | nil => rfl
    | cons y t => simp at h
  | cons x xt ih =>
    intro ys hx hy h
    cases ys with
    | nil => simp at h
    | cons y yt =>
      simp only [List.map_cons, List.cons.injEq] at h
      have hxy : x = y :=
        hexDigitChar_injOn x (hx x (by simp)) y (hy y (by simp)) h.1
      have ht : xt = yt :=
        ih yt (fun d hd => hx d (by simp [hd])) (fun d hd => hy d (by simp [hd])) h.2
      rw [hxy, ht]

theorem sha1HexStr_inj {n m : Nat} (hn : n < 16 ^ 40) (hm : m < 16 ^ 40)
    (h : sha1HexStr n = sha1HexStr m) : n = m := by
  have hl : (nibsLE 40 n).reverse.map hexDigitChar
      = (nibsLE 40 m).reverse.map hexDigitChar := congrArg String.data h
  have hrev : (nibsLE 40 n).reverse = (nibsLE 40 m).reverse :=
    map_hexDigitChar_inj _ _
      (fun d hd => nibsLE_lt 40 n d (List.mem_reverse.mp hd))
      (fun d hd => nibsLE_lt 40 m d (List.mem_reverse.mp hd)) hl
  have hnib : nibsLE 40 n = nibsLE 40 m := List.reverse_injective hrev
  have hofn := congrArg ofNibsLE hnib
  rw [ofNibsLE_nibsLE, ofNibsLE_nibsLE, Nat.mod_eq_of_lt hn, Nat.mod_eq_of_lt hm] at hofn
  exact hofn

/-- All five words of a SHA-1 state are genuine 32-bit words. -/
def Sha1H.Bounded (s : Sha1H) : Prop :=
  s.a < 4294967296 ∧ s.b < 4294967296 ∧ s.c < 4294967296 ∧
  s.d < 4294967296 ∧ s.e < 4294967296

theorem rotl32_lt (n x : Nat) : rotl32 n x < 4294967296 :=
  Nat.mod_lt _ (by norm_num)

theorem sha1Round_bounded (w : Array Nat) (s : Sha1H) (t : Nat)
    (hs : s.Bounded) : (sha1Round w s t).Bounded := by
  obtain ⟨h1, h2, h3, h4, h5⟩ := hs
  exact ⟨Nat.mod_lt _ (by norm_num), h1, rotl32_lt 30 s.b, h3, h4⟩

theorem foldl_sha1Round_bounded (w : Array Nat) (l : List Nat) :
    ∀ s : Sha1H, s.Bounded → (l.foldl (sha1Round w) s).Bounded := by
  induction l with
  | nil => intro s hs; exact hs
  | cons t ts ih => intro s hs; exact ih _ (sha1Round_bounded w s t hs)

theorem sha1ProcessChunk_bounded (h : Sha1H) (chunk : List Nat) :
    (sha1ProcessChunk h chunk).Bounded := by
  simp only [sha1ProcessChunk, Sha1H.Bounded]
  refine ⟨?_, ?_, ?_, ?_, ?_⟩ <;> exact Nat.mod_lt _ (by norm_num)

theorem foldl_sha1ProcessChunk_bounded (cs : List (List Nat)) :
    ∀ s : Sha1H, s.Bounded → (cs.foldl sha1ProcessChunk s).Bounded := by
  induction cs with
  | nil => intro s hs; exact hs
  | cons c t ih =>
    intro s _
    rw [List.foldl_cons]
    exact ih _ (sha1ProcessChunk_bounded s c)

theorem sha1Init_bounded : Sha1H.Bounded sha1Init := by
  refine ⟨?_, ?_, ?_, ?_, ?_⟩ <;> norm_num [sha1Init]

theorem sha1Combine_lt (s : Sha1H) (hs : s.Bounded) : sha1Combine s < 16 ^ 40 := by
  obtain ⟨h1, h2, h3, h4, h5⟩ := hs
  have h40 : (16 : Nat) ^ 40 = 1461501637330902918203684832716283019655932542976 := by
    norm_num
  rw [sha1Combine, h40]
  omega

theorem sha1Nat_lt (msg : List Nat) : sha1Nat msg < 16 ^ 40 :=
  sha1Combine_lt _ (foldl_sha1ProcessChunk_bounded _ _ sha1Init_bounded)

theorem poly_hash_injective {a b : String}
    (h : sha1Nat (utf8Bytes a) ≠ sha1Nat (utf8Bytes b)) :
    Hpc.poly_hash a ≠ Hpc.poly_hash b := fun he =>
  h (sha1HexStr_inj (sha1Nat_lt _) (sha1Nat_lt _) he)

theorem collectResults_map_ok {J R : Type} (w : J → R) (jobs : List J) :
    Hpc.collectResults (jobs.map (fun j => Except.ok (w j))) = .ok (jobs.map w) := by
  induction jobs with
  | nil => rfl
  | cons j t ih => simp [Hpc.collectResults, ih]

theorem dispatchEvents_all_ok {J R : Type} [Inhabited J] (jobs : List J)
    (w : J → R) (l : String) : ∀ order : List Nat,
    Extlib.dispatchEvents jobs (fun j => .ok (w j)) (some l) order
      = .done (order.map (fun i => (jobs.getD i default, w (jobs.getD i default)))) := by
  intro order
  induction order with
  | nil => rfl
  | cons i rest ih => simp [Extlib.dispatchEvents, ih, Extlib.run_dill,
      Extlib.dill_dumps, Extlib.dill_loads]

/-! ### Concrete inputs (from the spec's concrete scenario) -/

/-- First polygon of the spec's concrete scenario. -/
def wkt0 : String := "POLYGON((0 0,1 0,1 1,0 1,0 0))"

/-- Second polygon of the spec's concrete scenario. -/
def wkt1 : String := "POLYGON((2 2,3 2,3 3,2 3,2 2))"

/-- An external-program behavior whose every run succeeds with exit code 0. -/
def proc0 : String → Hpc.ExtProc := fun _ => ⟨0, "gridmetrics ok\n"⟩

/-- A worker whose every job returns exit code 0. -/
def workerOk0 : String → Except PyErr (Option Int) := fun _ => .ok (some 0)

/-- The pure outcome function where job "a" exits 1 (failure) and every
other job exits 0. -/
def wFail : String → Option Int := fun s => some (if s = "a" then 1 else 0)

/-- The worker returning `wFail` outcomes (no raised exception). -/
def workerAFails : String → Except PyErr (Option Int) := fun s => .ok (wFail s)

/-- A three-job outcome function with distinct values per job. -/
def w3 : String → Nat :=
  fun s => if s = "A" then 10 else if s = "B" then 20 else 30

/-- An empty filesystem: no output directories, no `DONE` markers. -/
def fs0 : Hpc.FS := ⟨[], []⟩

/-- First run of `grid_metrics_chm_worker` on `wkt0` (no marker present). -/
def run1 : Hpc.WorkerResult :=
  Hpc.grid_metrics_chm_worker proc0 fs0 wkt0 "2024-01-01 10:00" "2024-01-01 10:30"

/-- Second run of the same job on the filesystem the first run left behind. -/
def run2 : Hpc.WorkerResult :=
  Hpc.grid_metrics_chm_worker proc0 run1.fs wkt0 "2024-01-02 10:00" "2024-01-02 10:05"

/-! ### The claims -/

/-- **C1.** The worker does check the `DONE` marker before doing work, and a
successful run leaves the marker behind (the marker write itself is the
spec-modelled last step of the external program).  But on a second run of
the same job the skip path does not return the `None` sentinel: the source
writes the `str` `"Found DONE file (job already complete)\n"` to the
binary-mode (`'ab'`) log file, so the invocation raises `TypeError` instead
of reporting Skipped — no external process is launched, but the claimed
Skipped outcome is unreachable. -/
theorem worker_rerun_raises_instead_of_skipping :
    run1.ret = .ok (some 0)
  ∧ Hpc.done_marker wkt0 ∈ run1.fs.doneMarkers
  ∧ run2.ret = .error (.typeError "a bytes-like object is required, not str")
  ∧ (∀ d, Hpc.Ev.launch d ∉ run2.trace) := by
  refine ⟨?_, ?_, ?_, ?_⟩
  · simp [run1, Hpc.grid_metrics_chm_worker, Hpc.FS.hasDone, fs0, proc0]
  · simp [run1, Hpc.grid_metrics_chm_worker, Hpc.FS.hasDone, fs0, proc0]
  · simp [run2, run1, Hpc.grid_metrics_chm_worker, Hpc.FS.hasDone, fs0, proc0]
  · intro d
    simp [run2, run1, Hpc.grid_metrics_chm_worker, Hpc.FS.hasDone, fs0, proc0]

/-- **C2 counterexample.** A concrete batch in which job `"a"` fails with
exit code 1: the outcome list records the failure, yet the overall process
status is `0` — `main` discards `dispatch`'s results, so no aggregate
non-zero status is surfaced, contradicting the claim. -/
theorem dispatcher_zero_exit_despite_failed_job :
    (Hpc.dispatch ["a", "b"] workerAFails 2 [1, 0]).returned = .ok [some 1, some 0]
  ∧ Hpc.mainExitStatus ["a", "b"] workerAFails 3 [1, 0] = 0 := by
  constructor
  · rfl
  · rfl

/-- **C2 (amended).** A job's non-zero exit code is recorded as that job's
Outcome and does not abort sibling jobs: the pool executes every submitted
job, and for workers that do not raise, `dispatch` returns the full
index-aligned outcome list.  But the dispatcher surfaces no aggregate
status: `main` discards the outcomes and the overall status is `0` whenever
no worker raised an exception, even when outcomes are non-zero. -/
theorem dispatch_isolation_and_discarded_aggregate {R : Type}
    (jobs : List String) (worker : String → Except PyErr R)
    (w : String → Option Int) (slurm_ntasks : Int) (order : List Nat)
    (h : 1 ≤ Hpc.MAX_WORKERS slurm_ntasks) :
    (Hpc.dispatch jobs worker (Hpc.MAX_WORKERS slurm_ntasks) order).executed
      = List.range jobs.length
  ∧ (Hpc.dispatch jobs (fun j => .ok (w j)) (Hpc.MAX_WORKERS slurm_ntasks) order).returned
      = .ok (jobs.map w)
  ∧ Hpc.mainExitStatus jobs (fun j => .ok (w j)) slurm_ntasks order = 0 := by
  have hneg : ¬ Hpc.MAX_WORKERS slurm_ntasks ≤ 0 := by omega
  refine ⟨?_, ?_, ?_⟩
  · simp [Hpc.dispatch, hneg]
  · simp [Hpc.dispatch, hneg, collectResults_map_ok]
  · simp [Hpc.mainExitStatus, Hpc.dispatch, hneg, collectResults_map_ok]

/-- Witness for C2's amended theorem at the counterexample's batch. -/
theorem dispatch_isolation_witness :
    (Hpc.dispatch ["a", "b"] workerAFails (Hpc.MAX_WORKERS 2) [0, 1]).executed = [0, 1]
  ∧ (Hpc.dispatch ["a", "b"] (fun j => .ok (wFail j)) (Hpc.MAX_WORKERS 2) [0, 1]).returned
      = .ok [some 1, some 0]
  ∧ Hpc.mainExitStatus ["a", "b"] (fun j => .ok (wFail j)) 2 [0, 1] = 0 := by
  have h := dispatch_isolation_and_discarded_aggregate
    (R := Option Int) ["a", "b"] workerAFails wFail 2 [0, 1] (by decide)
  exact ⟨h.1, by simpa using h.2.1, h.2.2⟩

/-- **C3.** Ordered/blocking dispatch submits every job up front (the pool
executes all of them), blocks until all complete, and returns the outcome
list index-aligned with the input sequence — the i-th result is the
worker's outcome for the i-th job — for every completion order of the
submitted futures. -/
theorem dispatch_ordered_index_aligned {J R : Type} (jobs : List J) (w : J → R)
    (max_workers : Int) (order : List Nat) (hm : 1 ≤ max_workers)
    (hperm : order.Perm (List.range jobs.length)) :
    (Hpc.dispatch jobs (fun j => .ok (w j)) max_workers order).executed
      = List.range jobs.length
  ∧ (Hpc.dispatch jobs (fun j => .ok (w j)) max_workers order).returned
      = .ok (jobs.map w)
  ∧ ∀ i : Fin jobs.length,
      (jobs.map w).get (Fin.cast (List.length_map jobs w).symm i) = w (jobs.get i) := by
  have hneg : ¬ max_workers ≤ 0 := by omega
  refine ⟨?_, ?_, ?_⟩
  · simp [Hpc.dispatch, hneg]
  · simp [Hpc.dispatch, hneg, collectResults_map_ok]
  · intro i
    simp [List.get_eq_getElem, List.getElem_map]

/-- Witness for C3 with jobs `["A", "B", "C"]` and completion order
`[2, 0, 1]` (job C finishes first). -/
theorem dispatch_ordered_witness :
    (Hpc.dispatch ["A", "B", "C"] (fun j => .ok (w3 j)) 2 [2, 0, 1]).executed = [0, 1, 2]
  ∧ (Hpc.dispatch ["A", "B", "C"] (fun j => .ok (w3 j)) 2 [2, 0, 1]).returned
      = .ok [10, 20, 30] := by
  have h := dispatch_ordered_index_aligned ["A", "B", "C"] w3 2 [2, 0, 1]
    (by decide) (by decide)
  exact ⟨h.1, by simpa using h.2.1⟩

/-- **C4.** For a one-job batch consumed from a fresh import of
`vogeler.extlib` (no caller has bound a module-level `log`), the streaming
dispatch generator raises `NameError` at the first completion and yields
zero `(descriptor, outcome)` pairs instead of the claimed one pair — yet
the pool has already executed the job.  This contradicts the function's own
docstring ("yield worker results in order they finish"). -/
theorem streaming_dispatch_raises_before_first_yield :
    (Extlib.dispatch [wkt0] workerOk0 4 [0] none).events
      = .raised (.nameError "log") []
  ∧ (Extlib.dispatch [wkt0] workerOk0 4 [0] none).executed = [0] :=
  ⟨rfl, rfl⟩

/-- **C5.** The worker derives the job's output location and
completion-marker key from the SHA-1 digest of the descriptor's full
content alone, creates the digest-named directory as its first action
(before the marker check and before any execution), keys the `DONE` check
by the same derived path; identical descriptors map to the same
directory/marker, and descriptors whose digests differ map to distinct
directories. -/
theorem worker_digest_identity (proc : String → Hpc.ExtProc) (fs : Hpc.FS)
    (a b t1 t2 : String) :
    Hpc.out_dir a = "./export/" ++ sha1HexStr (sha1Nat (utf8Bytes a))
  ∧ (Hpc.grid_metrics_chm_worker proc fs a t1 t2).trace.head?
      = some (.mkdirOut (Hpc.out_dir a))
  ∧ (Hpc.grid_metrics_chm_worker proc fs a t1 t2).trace.getD 4 .closeLog
      = .checkDone (Hpc.done_marker a) (fs.hasDone (Hpc.done_marker a))
  ∧ (a = b → Hpc.out_dir a = Hpc.out_dir b ∧ Hpc.done_marker a = Hpc.done_marker b)
  ∧ (sha1Nat (utf8Bytes a) ≠ sha1Nat (utf8Bytes b) →
      Hpc.out_dir a ≠ Hpc.out_dir b) := by
  refine ⟨rfl, ?_, ?_, fun hab => by rw [hab]; exact ⟨rfl, rfl⟩, ?_⟩
  · by_cases hmem : Hpc.done_marker a ∈ fs.doneMarkers <;>
      simp [Hpc.grid_metrics_chm_worker, Hpc.FS.hasDone, hmem]
  · by_cases hmem : Hpc.done_marker a ∈ fs.doneMarkers <;>
      simp [Hpc.grid_metrics_chm_worker, Hpc.FS.hasDone, hmem, List.getD]
  · intro hne he
    exact poly_hash_injective hne (stringAppendLeftCancel he)

set_option maxRecDepth 10000 in
/-- Witness for C5 at the spec's two concrete polygons: their SHA-1 digests
differ, so their output directories differ. -/
theorem worker_digest_identity_witness :
    Hpc.out_dir wkt0 ≠ Hpc.out_dir wkt1
  ∧ (Hpc.grid_metrics_chm_worker proc0 fs0 wkt0 "t1" "t2").trace.head?
      = some (.mkdirOut (Hpc.out_dir wkt0)) := by
  have h := worker_digest_identity proc0 fs0 wkt0 wkt1 "t1" "t2"
  exact ⟨h.2.2.2.2 (by decide), h.2.1⟩

/-- **C6.** `dispatch`'s default pool size is the SLURM allocation minus
one slot reserved for the coordinator (`SLURM_NTASKS - 1`); with
`max_workers ≥ 1` the pool is allocated and its size is fixed at
`max_workers` for the batch, and the batch outcome collection proceeds,
while `max_workers = 0` fails pool allocation with `ValueError`. -/
theorem dispatch_pool_size_precondition {J R : Type} (jobs : List J)
    (worker : J → Except PyErr R) (slurm_ntasks : Int) (m : Int)
    (order : List Nat) (hm : 1 ≤ m) :
    Hpc.MAX_WORKERS slurm_ntasks = slurm_ntasks - 1
  ∧ (Hpc.dispatch jobs worker m order).poolSize = some m
  ∧ (Hpc.dispatch jobs worker m order).returned
      = Hpc.collectResults (jobs.map worker)
  ∧ (Hpc.dispatch jobs worker 0 order).poolSize = none
  ∧ (Hpc.dispatch jobs worker 0 order).returned = .error Hpc.pool_err := by
  have hneg : ¬ m ≤ 0 := by omega
  refine ⟨rfl, ?_, ?_, ?_, ?_⟩ <;> simp [Hpc.dispatch, hneg]

/-- Witness for C6 with a 4-task allocation: default pool size 3. -/
theorem dispatch_pool_witness :
    Hpc.MAX_WORKERS 4 = 3
  ∧ (Hpc.dispatch ["a"] workerOk0 3 [0]).poolSize = some 3
  ∧ (Hpc.dispatch ["a"] workerOk0 3 [0]).returned
      = Hpc.collectResults (["a"].map workerOk0)
  ∧ (Hpc.dispatch ["a"] workerOk0 0 [0]).poolSize = none
  ∧ (Hpc.dispatch ["a"] workerOk0 0 [0]).returned = .error Hpc.pool_err :=
  dispatch_pool_size_precondition ["a"] workerOk0 4 3 [0] (by decide)

/-- **C7.** The two-stage indirection used by streaming dispatch —
`dill.dumps` at submission, `run_dill` (deserialize then invoke) inside the
execution context — yields the same result as applying the worker
directly, both pointwise and across the whole as-completed loop. -/
theorem run_dill_dumps_roundtrip {J R : Type} [Inhabited J]
    (w : J → Except PyErr R) (j : J) (jobs : List J) (lb : Option String)
    (order : List Nat) :
    Extlib.run_dill (Extlib.dill_dumps w) j = w j
  ∧ Extlib.dispatchEvents jobs w lb order
      = Extlib.dispatchEventsDirect jobs w lb order := by
  constructor
  · rfl
  · induction order with
    | nil => rfl
    | cons i rest ih =>
      cases lb with
      | none => rfl
      | some l =>
        simp only [Extlib.dispatchEvents, Extlib.dispatchEventsDirect,
          Extlib.run_dill, Extlib.dill_dumps, Extlib.dill_loads, ih]

/-- **C8.** On the work path (no marker present) the job log is written in
order — header (job identity, start timestamp), then the external
process's combined stdout/stderr, then footer (end timestamp, exit code) —
and the log is closed (hence flushed) as the invocation's last file action
before it returns the exit code. -/
theorem worker_log_record (proc : String → Hpc.ExtProc) (fs : Hpc.FS)
    (poly_wkt t1 t2 : String)
    (h : Hpc.done_marker poly_wkt ∉ fs.doneMarkers) :
    Hpc.logContent (Hpc.grid_metrics_chm_worker proc fs poly_wkt t1 t2).trace
      = [Hpc.log_header poly_wkt t1, (proc poly_wkt).output,
         Hpc.log_footer t2 (some (proc poly_wkt).exitCode)]
  ∧ (Hpc.grid_metrics_chm_worker proc fs poly_wkt t1 t2).trace.getLast?
      = some .closeLog
  ∧ (Hpc.grid_metrics_chm_worker proc fs poly_wkt t1 t2).ret
      = .ok (some (proc poly_wkt).exitCode) := by
  by_cases hrc : (proc poly_wkt).exitCode = 0 <;>
    simp [Hpc.grid_metrics_chm_worker, Hpc.FS.hasDone, Hpc.logContent, h, hrc,
      List.getLast?]

/-- Witness for C8 on an empty filesystem. -/
theorem worker_log_record_witness :
    Hpc.logContent (Hpc.grid_metrics_chm_worker proc0 fs0 wkt0 "t1" "t2").trace
      = [Hpc.log_header wkt0 "t1", (proc0 wkt0).output,
         Hpc.log_footer "t2" (some (proc0 wkt0).exitCode)]
  ∧ (Hpc.grid_metrics_chm_worker proc0 fs0 wkt0 "t1" "t2").trace.getLast?
      = some .closeLog
  ∧ (Hpc.grid_metrics_chm_worker proc0 fs0 wkt0 "t1" "t2").ret
      = .ok (some (proc0 wkt0).exitCode) :=
  worker_log_record proc0 fs0 wkt0 "t1" "t2" (by simp [fs0])

/-- **C9.** On the empty job sequence (with a successfully allocated pool)
ordered dispatch returns the empty outcome list, streaming dispatch runs to
completion yielding no pairs, and neither has the pool invoke the worker at
all. -/
theorem dispatch_empty_jobs {J R : Type} [Inhabited J]
    (worker : J → Except PyErr R) (m cpu : Int) (order : List Nat)
    (lb : Option String) (hm : 1 ≤ m) (hcpu : 1 ≤ cpu) :
    (Hpc.dispatch ([] : List J) worker m order).returned = .ok []
  ∧ (Hpc.dispatch ([] : List J) worker m order).executed = []
  ∧ (Extlib.dispatch ([] : List J) worker cpu [] lb).events = .done []
  ∧ (Extlib.dispatch ([] : List J) worker cpu [] lb).executed = [] := by
  have hm0 : ¬ m ≤ 0 := by omega
  have hc0 : ¬ cpu ≤ 0 := by omega
  refine ⟨?_, ?_, ?_, ?_⟩ <;>
    simp [Hpc.dispatch, Extlib.dispatch, hm0, hc0, Hpc.collectResults,
      Extlib.dispatchEvents]

/-- Witness for C9. -/
theorem dispatch_empty_jobs_witness :
    (Hpc.dispatch ([] : List String) workerOk0 1 []).returned = .ok []
  ∧ (Hpc.dispatch ([] : List String) workerOk0 1 []).executed = []
  ∧ (Extlib.dispatch ([] : List String) workerOk0 4 [] none).events = .done []
  ∧ (Extlib.dispatch ([] : List String) workerOk0 4 [] none).executed = [] :=
  dispatch_empty_jobs workerOk0 1 4 [] none (by decide) (by decide)

/-- **C10.** `extlib.dispatch` reads a module-level name `log` that
`extlib.py` never defines: on any non-empty job list, the generator raises
`NameError` at the first completion, before yielding any pair — unless the
caller has first bound a logger named `log` into the module namespace, in
which case (for a non-raising worker) it yields every pair in completion
order. -/
theorem streaming_log_name_unbound {J R : Type} [Inhabited J] (jobs : List J)
    (worker : J → Except PyErr R) (w : J → R) (cpu : Int) (order : List Nat)
    (l : String) (hcpu : 1 ≤ cpu) (hne : jobs ≠ [])
    (hord : order.Perm (List.range jobs.length)) :
    (Extlib.dispatch jobs worker cpu order none).events
      = .raised (.nameError "log") []
  ∧ (Extlib.dispatch jobs (fun j => .ok (w j)) cpu order (some l)).events
      = .done (order.map (fun i => (jobs.getD i default, w (jobs.getD i default)))) := by
  have hc0 : ¬ cpu ≤ 0 := by omega
  constructor
  · have hlen : order.length = jobs.length := by
      simpa using hord.length_eq
    cases order with
    | nil =>
      exact absurd (List.length_eq_zero.mp (by simpa using hlen.symm)) hne
    | cons i rest => simp [Extlib.dispatch, hc0, Extlib.dispatchEvents]
  · simp [Extlib.dispatch, hc0, dispatchEvents_all_ok]

/-- Witness for C10 on a two-job batch with completion order reversed. -/
theorem streaming_log_name_unbound_witness :
    (Extlib.dispatch ["x", "y"] workerOk0 4 [1, 0] none).events
      = .raised (.nameError "log") []
  ∧ (Extlib.dispatch ["x", "y"]
        (fun j => .ok ((fun _ : String => some (0 : Int)) j)) 4 [1, 0]
        (some "logger")).events
      = .done [("y", some 0), ("x", some 0)] := by
  have h := streaming_log_name_unbound ["x", "y"] workerOk0
    (fun _ : String => some (0 : Int)) 4 [1, 0] "logger"
    (by decide) (by decide) (by decide)
  refine ⟨h.1, ?_⟩
  rw [h.2]
  rfl
